import Mathlib

/-
Verification of the MCPLaunchPad authentication core: a shallow embedding of
the bearer-token HTTP gateway (mcpserver, bearerTokenHTTPMiddleware.ServeHTTP),
the tool-handler middleware (mcpserver/middleware.go, withBearerTokenAuth), and
the Google OAuth2 device-flow provider (oauth2/google.go).

Modelling conventions:
- Go (value, error) returns become Except; a nil error is Except.ok.
- Go map[string]any becomes an association list of String by GoValue; the
  unspecified map iteration order of the enrichment loops is abstracted as
  list order (no property proved here depends on the order).
- HTTP effects are captured by passing the outcome of the network call as a
  value: either the transport failed (netError, which also covers the
  practically impossible request-construction failure of
  http.NewRequestWithContext on these fixed URLs), or a response arrived with
  a status code and a body. A body is represented by the outcome of the
  json decodings the Go code applies to it.
- time.Duration values are represented as Nat (one unit = one second, the
  unit both the example callers and the wire interval field use).
-/

deriving instance DecidableEq for Except

namespace MCPLaunchPad

/-- Characters accepted by unicode.IsSpace in Go, used by strings.TrimSpace. -/
def goIsSpace (c : Char) : Bool :=
  c = '\t' || c = '\n' || c.val = 11 || c.val = 12 || c = '\r' || c = ' ' ||
  c.val = 0x85 || c.val = 0xA0 || c.val = 0x1680 ||
  (0x2000 ≤ c.val && c.val ≤ 0x200A) ||
  c.val = 0x2028 || c.val = 0x2029 || c.val = 0x202F || c.val = 0x205F ||
  c.val = 0x3000

/-- Go strings.TrimSpace: drop leading and trailing white space. -/
def goTrimSpace (s : String) : String :=
  String.mk (((s.data.dropWhile goIsSpace).reverse.dropWhile goIsSpace).reverse)

/-- Go strings.HasPrefix s p. -/
def goStartsWith (s p : String) : Bool :=
  p.data.isPrefixOf s.data

/-- Go strings.TrimPrefix s p: remove the leading p from s when present. -/
def goTrimStart (s p : String) : String :=
  if goStartsWith s p then String.mk (s.data.drop p.data.length) else s

/-- Substring occurrence over character lists (Go strings.Contains). -/
def listContains (needle : List Char) : List Char → Bool
  | [] => needle.isEmpty
  | c :: rest => needle.isPrefixOf (c :: rest) || listContains needle rest

/-- Go strings.Contains s sub. -/
def containsSubstr (s sub : String) : Bool :=
  listContains sub.data s.data

/-- A Go interface value stored in a map of String to any. -/
inductive GoValue
  | bool (b : Bool)
  | str (s : String)
  | int (n : Int)
deriving DecidableEq, Repr

/-- Go map of String to any used for auth context data, as an association list. -/
abbrev AuthContext := List (String × GoValue)

/-- mcptypes.BearerTokenValidator: func(token string) (map of String to any, error). -/
abbrev Validator := String → Except String AuthContext

/-- mcptypes.TokenResponse. -/
structure TokenResponse where
  accessToken : String
  refreshToken : String
  expiresIn : Int
deriving DecidableEq, Repr

/-- mcptypes.DeviceCodeResponse. Note: no interval field exists. -/
structure DeviceCodeResponse where
  deviceCode : String
  userCode : String
  verificationURI : String
  expiresIn : Int
deriving DecidableEq, Repr

/-- Outcome of an HTTP round trip whose body the Go code decodes into β. -/
inductive HTTPResult (β : Type)
  | netError (msg : String)
  | response (status : Nat) (body : β)
deriving DecidableEq, Repr

/-- Go context.WithValue: a child context that shadows key k with value v. -/
def withValue (ctx : AuthContext) (k : String) (v : GoValue) : AuthContext :=
  (k, v) :: ctx

/-- The enrichment loop of the middleware: for key, value in contextData,
ctx = context.WithValue(ctx, key, value). -/
def enrichContext (ctx : AuthContext) (contextData : AuthContext) : AuthContext :=
  contextData.foldl (fun c kv => withValue c kv.1 kv.2) ctx

/-- What bearerTokenHTTPMiddleware.ServeHTTP does with the response writer and
the downstream handler: either http.Error with a status and body, or the
downstream handler is invoked on the request carrying the enriched context. -/
inductive GatewayOutcome
  | unauthorized (status : Nat) (body : String)
  | forwarded (enriched : AuthContext)
deriving DecidableEq, Repr

/-- bearerTokenHTTPMiddleware.ServeHTTP (mcpserver). Input: the validator, the
context of the incoming request, and the raw Authorization header value
(r.Header.Get gives the empty string when the header is absent). Output: the
gateway outcome paired with the list of tokens the validator was invoked on
during the call (instrumentation recording every use of m.validator). -/
def serveHTTP (validator : Validator) (reqCtx : AuthContext) (authHeader : String) :
    GatewayOutcome × List String :=
  if authHeader = "" then
    (.unauthorized 401 "Authorization required", [])
  else if !(goStartsWith authHeader "Bearer ") then
    (.unauthorized 401 "Invalid Authorization format - expected Bearer token", [])
  else
    let token := goTrimSpace (goTrimStart authHeader "Bearer ")
    match validator token with
    | .error _ => (.unauthorized 401 "Invalid token", [token])
    | .ok contextData => (.forwarded (enrichContext reqCtx contextData), [token])

/-- The token ServeHTTP would extract from a header value, when it reaches the
extraction step at all. -/
def bearerToken (authHeader : String) : Option String :=
  if authHeader = "" then none
  else if !(goStartsWith authHeader "Bearer ") then none
  else some (goTrimSpace (goTrimStart authHeader "Bearer "))

/-- mcp.CallToolRequest as seen by the tool-handler middleware: the tool name,
its arguments, and whatever credential material the caller attached. -/
structure CallToolRequest where
  name : String
  arguments : List (String × GoValue)
  headerCredential : String
deriving DecidableEq, Repr

/-- The authentication decision of the tool-handler middleware: either it
returns mcp.NewToolResultError together with the validator error, or it calls
next with the enriched context. -/
inductive ToolAuthDecision
  | reject (result : String) (err : String)
  | forward (enriched : AuthContext)
deriving DecidableEq, Repr

/-- withBearerTokenAuth (mcpserver/middleware.go): the wrapped ToolHandlerFunc.
Output: the decision paired with the list of tokens the validator was invoked
on. The source calls validator with a literal empty string and never reads the
request. -/
def withBearerTokenAuth (validator : Validator) (ctx : AuthContext)
    (request : CallToolRequest) : ToolAuthDecision × List String :=
  match validator "" with
  | .error e => (.reject "Authentication required" e, [""])
  | .ok contextData => (.forward (enrichContext ctx contextData), [""])

/-- Error values built by oauth2/google.go, together with the format strings
fmt.Errorf applies (GoErr.message below renders the Error() text). Status
texts and raw failure bodies interpolated into messages no theorem depends on
are abstracted to the numeric status. -/
inductive GoErr
  | sendFailed (d : String)
  | readFailed (d : String)
  | plain (s : String)
  | exchangeFailed (e d : String)
  | parseFailed (d : String)
  | deviceCodeReqFailed (status : Nat)
  | refreshFailed (status : Nat)
  | userInfoFailed (status : Nat)
  | userInfoParseFailed (d : String)
  | deviceCodeExpired
  | ctxErr (m : String)
deriving DecidableEq, Repr

/-- The Error() string of each GoErr, following the fmt.Errorf calls in
oauth2/google.go. -/
def GoErr.message : GoErr → String
  | .sendFailed d => "failed to send request: " ++ d
  | .readFailed d => "failed to read response: " ++ d
  | .plain s => s
  | .exchangeFailed e d => "token exchange failed: " ++ e ++ " - " ++ d
  | .parseFailed d => "failed to parse response: " ++ d
  | .deviceCodeReqFailed st => "device code request failed: " ++ toString st
  | .refreshFailed st => "token refresh failed: " ++ toString st
  | .userInfoFailed st => "failed to get user info: " ++ toString st
  | .userInfoParseFailed d => "failed to parse user info: " ++ d
  | .deviceCodeExpired => "device code expired"
  | .ctxErr m => m

/-- The anonymous wire struct GetDeviceCode decodes the device-authorization
response body into. -/
structure DeviceAuthWire where
  device_code : String
  user_code : String
  verification_url : String
  expires_in : Int
  interval : Int
  verification_url_complete : String
deriving DecidableEq, Repr

/-- GetDeviceCode (oauth2/google.go). The body argument is the outcome of the
json decoding of the response body into DeviceAuthWire (Except.error carries
the decoder message). Note that the wire interval field is dropped: the
returned DeviceCodeResponse has no interval. -/
def getDeviceCode (r : HTTPResult (Except String DeviceAuthWire)) :
    Except GoErr DeviceCodeResponse :=
  match r with
  | .netError m => .error (.sendFailed m)
  | .response status body =>
    if status ≠ 200 then .error (.deviceCodeReqFailed status)
    else
      match body with
      | .error d => .error (.parseFailed d)
      | .ok w =>
        .ok { deviceCode := w.device_code, userCode := w.user_code,
              verificationURI := w.verification_url, expiresIn := w.expires_in }

/-- The anonymous error struct ExchangeDeviceCode unmarshals the body into
first (json fields error and error_description). -/
structure ErrObjWire where
  errField : String
  errDescription : String
deriving DecidableEq, Repr

/-- The anonymous success struct ExchangeDeviceCode and RefreshToken decode
the body into (json fields access_token, refresh_token, expires_in,
token_type; token_type is decoded but never used). -/
structure TokObjWire where
  access_token : String
  refresh_token : String
  expires_in : Int
deriving DecidableEq, Repr

/-- A token-endpoint response body, represented by the outcomes of the two
json.Unmarshal calls ExchangeDeviceCode applies to the same bytes: into the
error struct and into the success struct. A JSON object yields ok for both, a
body that is not a JSON object yields error for both; the decoder message is
carried in Except.error. -/
structure ExchangeBody where
  asError : Except String ErrObjWire
  asToken : Except String TokObjWire
deriving DecidableEq, Repr

/-- The HTTP outcome visible to ExchangeDeviceCode, which (unlike the other
calls) reads the whole body with io.ReadAll before decoding, so a body read
failure is a distinct case. ExchangeDeviceCode never consults the status code. -/
inductive ExchangeHTTP
  | netError (msg : String)
  | readError (msg : String)
  | response (status : Nat) (body : ExchangeBody)
deriving DecidableEq, Repr

/-- The success-path tail of ExchangeDeviceCode: unmarshal the body into the
success struct and build the TokenResponse from its fields verbatim. -/
def exchangeTokenOf (body : ExchangeBody) : Except GoErr TokenResponse :=
  match body.asToken with
  | .error d => .error (.parseFailed d)
  | .ok t =>
    .ok { accessToken := t.access_token, refreshToken := t.refresh_token,
          expiresIn := t.expires_in }

/-- ExchangeDeviceCode (oauth2/google.go). First unmarshal into the error
struct; when that succeeds and the error field is non-empty, return the bare
error text for authorization_pending and slow_down and a token-exchange
failure otherwise; in every other case fall through to the success parse. -/
def exchangeDeviceCode (r : ExchangeHTTP) : Except GoErr TokenResponse :=
  match r with
  | .netError m => .error (.sendFailed m)
  | .readError m => .error (.readFailed m)
  | .response _status body =>
    match body.asError with
    | .ok e =>
      if e.errField ≠ "" then
        if e.errField = "authorization_pending" || e.errField = "slow_down" then
          .error (.plain e.errField)
        else
          .error (.exchangeFailed e.errField e.errDescription)
      else exchangeTokenOf body
    | .error _ => exchangeTokenOf body

/-- RefreshToken (oauth2/google.go). The body argument is the outcome of the
json decoding into the success struct. On a decoded body whose refresh_token
is empty, the refresh token passed in is carried into the result. -/
def refreshTokenCall (refreshTok : String)
    (r : HTTPResult (Except String TokObjWire)) : Except GoErr TokenResponse :=
  match r with
  | .netError m => .error (.sendFailed m)
  | .response status body =>
    if status ≠ 200 then .error (.refreshFailed status)
    else
      match body with
      | .error d => .error (.parseFailed d)
      | .ok t =>
        let newRefresh := if t.refresh_token = "" then refreshTok else t.refresh_token
        .ok { accessToken := t.access_token, refreshToken := newRefresh,
              expiresIn := t.expires_in }

/-- ValidateToken (oauth2/google.go): valid exactly when the tokeninfo
endpoint answers 200; any other status is ok false; only a transport failure
is an error. The body is never read. -/
def validateToken (r : HTTPResult Unit) : Except GoErr Bool :=
  match r with
  | .netError m => .error (.sendFailed m)
  | .response status _ => if status = 200 then .ok true else .ok false

/-- GetUserInfo (oauth2/google.go). The body argument is the outcome of the
json decoding of the userinfo body into a map of String to any. -/
def getUserInfo (r : HTTPResult (Except String AuthContext)) :
    Except GoErr AuthContext :=
  match r with
  | .netError m => .error (.sendFailed m)
  | .response status body =>
    if status ≠ 200 then .error (.userInfoFailed status)
    else
      match body with
      | .error d => .error (.userInfoParseFailed d)
      | .ok u => .ok u

/-- CreateBearerTokenValidator (oauth2/google.go). The two HTTP worlds map
each token to the outcome of the corresponding network call (ValidateToken
against tokeninfo, GetUserInfo against userinfo). On a valid token with a
failed identity fetch, the minimal context is returned without error. -/
def createBearerTokenValidator
    (validateHTTP : String → HTTPResult Unit)
    (userInfoHTTP : String → HTTPResult (Except String AuthContext)) : Validator :=
  fun token =>
    match validateToken (validateHTTP token) with
    | .error e => .error ("failed to validate token: " ++ e.message)
    | .ok false => .error "invalid token"
    | .ok true =>
      match getUserInfo (userInfoHTTP token) with
      | .error _ => .ok [("authenticated", GoValue.bool true)]
      | .ok userInfo => .ok userInfo

/-- The polling-loop state of DeviceFlowWithPolling: the current ticker period
and the device-code response the loop was started with. -/
structure PollState where
  tickerInterval : Nat
  deviceResp : DeviceCodeResponse
deriving DecidableEq, Repr

/-- One wakeup of the select in the polling loop: context cancellation, the
expiry timeout channel, or a ticker tick carrying the result of the
ExchangeDeviceCode call made on that tick. -/
inductive PollEvent
  | ctxDone (errMsg : String)
  | timeout
  | tick (exchangeResult : Except GoErr TokenResponse)
deriving DecidableEq, Repr

/-- The effect of one loop iteration: either the loop continues with a state
(possibly after ticker.Reset), or the function returns. -/
inductive PollStep
  | again (s : PollState)
  | done (result : Except GoErr (TokenResponse × DeviceCodeResponse))
deriving DecidableEq, Repr

/-- One iteration of the select loop of DeviceFlowWithPolling
(oauth2/google.go). interval is the function argument (the value the ticker
was created with); note the slow_down branch resets the ticker to interval
times two, where interval is that original argument, not the current period. -/
def pollStep (interval : Nat) (s : PollState) (e : PollEvent) : PollStep :=
  match e with
  | .ctxDone m => .done (.error (.ctxErr m))
  | .timeout => .done (.error .deviceCodeExpired)
  | .tick (.ok tok) => .done (.ok (tok, s.deviceResp))
  | .tick (.error err) =>
    if containsSubstr err.message "authorization_pending" then .again s
    else if containsSubstr err.message "slow_down" then
      .again { s with tickerInterval := interval * 2 }
    else .done (.error err)

/-- The prelude of DeviceFlowWithPolling: call GetDeviceCode, return its error
as-is on failure, otherwise create the ticker at the caller-supplied interval
and enter the loop. -/
def deviceFlowStart (interval : Nat)
    (deviceCodeResult : Except GoErr DeviceCodeResponse) : Except GoErr PollState :=
  match deviceCodeResult with
  | .error e => .error e
  | .ok dr => .ok { tickerInterval := interval, deviceResp := dr }

/-- A validator that accepts every token with an empty context, for concrete
instantiations. -/
def acceptAllValidator : Validator := fun _ => .ok []

/-- A validator that accepts exactly the token good, for concrete
instantiations. -/
def demoValidator : Validator :=
  fun t =>
    if t = "good" then .ok [("authenticated", GoValue.bool true)]
    else .error "invalid token"

/-- A concrete device-code response, for concrete instantiations. -/
def drDemo : DeviceCodeResponse :=
  { deviceCode := "dc-1", userCode := "ABCD-EFGH",
    verificationURI := "https://www.google.com/device", expiresIn := 1800 }

/-- A concrete device-authorization wire body whose interval field is 7, for
concrete instantiations. -/
def wireDemo : DeviceAuthWire :=
  { device_code := "dc-1", user_code := "ABCD-EFGH",
    verification_url := "https://www.google.com/device", expires_in := 1800,
    interval := 7, verification_url_complete := "" }

/-- The tick event carrying the slow_down outcome of ExchangeDeviceCode. -/
def slowDownTick : PollEvent := .tick (.error (.plain "slow_down"))

/-- The success struct decoded from an empty JSON object body: every field at
its zero value. -/
def emptyTokObj : TokObjWire := { access_token := "", refresh_token := "", expires_in := 0 }

/-- The exchange body for an empty JSON object: both unmarshals succeed and
every field is at its zero value. -/
def emptyExchangeBody : ExchangeBody :=
  { asError := .ok { errField := "", errDescription := "" }, asToken := .ok emptyTokObj }

/-- A header carrying the Bearer-space marker is not empty. -/
theorem marker_ne_empty {h : String} (h1 : goStartsWith h "Bearer " = true) : h ≠ "" := by
  intro he
  rw [he] at h1
  exact absurd h1 (by decide)

/-- Evaluation of ServeHTTP on an absent header. -/
theorem serveHTTP_empty (v : Validator) (reqCtx : AuthContext) :
    serveHTTP v reqCtx "" = (.unauthorized 401 "Authorization required", []) := by
  simp [serveHTTP]

/-- Evaluation of ServeHTTP on a present header without the marker. -/
theorem serveHTTP_noMarker (v : Validator) (reqCtx : AuthContext) (h : String)
    (h0 : h ≠ "") (h1 : goStartsWith h "Bearer " = false) :
    serveHTTP v reqCtx h =
      (.unauthorized 401 "Invalid Authorization format - expected Bearer token", []) := by
  simp [serveHTTP, h0, h1]

/-- Evaluation of ServeHTTP when the marker is present and the validator
rejects the extracted token. -/
theorem serveHTTP_marker_error (v : Validator) (reqCtx : AuthContext) (h e : String)
    (h1 : goStartsWith h "Bearer " = true)
    (hv : v (goTrimSpace (goTrimStart h "Bearer ")) = .error e) :
    serveHTTP v reqCtx h =
      (.unauthorized 401 "Invalid token", [goTrimSpace (goTrimStart h "Bearer ")]) := by
  simp [serveHTTP, marker_ne_empty h1, h1, hv]

/-- Evaluation of ServeHTTP when the marker is present and the validator
accepts the extracted token. -/
theorem serveHTTP_marker_ok (v : Validator) (reqCtx : AuthContext) (h : String)
    (c : AuthContext) (h1 : goStartsWith h "Bearer " = true)
    (hv : v (goTrimSpace (goTrimStart h "Bearer ")) = .ok c) :
    serveHTTP v reqCtx h =
      (.forwarded (enrichContext reqCtx c), [goTrimSpace (goTrimStart h "Bearer ")]) := by
  simp [serveHTTP, marker_ne_empty h1, h1, hv]

/-- C1: for every inbound request, the downstream handler is invoked only when
the validator returned a non-error AuthContext on the token of the request,
and on any validator error the gateway answers 401 and the handler is never
invoked. -/
theorem C1_gateway_forwards_only_on_validator_success
    (v : Validator) (reqCtx : AuthContext) (authHeader : String) :
    (∀ enriched, (serveHTTP v reqCtx authHeader).1 = .forwarded enriched →
      ∃ t c, bearerToken authHeader = some t ∧ v t = .ok c ∧
        enriched = enrichContext reqCtx c) ∧
    (∀ t e, bearerToken authHeader = some t → v t = .error e →
      (serveHTTP v reqCtx authHeader).1 = .unauthorized 401 "Invalid token") := by
  by_cases h0 : authHeader = ""
  · subst h0
    rw [serveHTTP_empty]
    constructor
    · intro enriched henr
      exact absurd henr (by simp)
    · intro t e ht
      exact absurd ht (by simp [bearerToken])
  · by_cases h1 : goStartsWith authHeader "Bearer "
    · have htok : bearerToken authHeader = some (goTrimSpace (goTrimStart authHeader "Bearer ")) := by
        simp [bearerToken, h0, h1]
      cases hv : v (goTrimSpace (goTrimStart authHeader "Bearer ")) with
      | error e =>
        rw [serveHTTP_marker_error v reqCtx authHeader e h1 hv]
        constructor
        · intro enriched henr
          exact absurd henr (by simp)
        · intro t e2 ht he2
          rfl
      | ok c =>
        rw [serveHTTP_marker_ok v reqCtx authHeader c h1 hv]
        constructor
        · intro enriched henr
          refine ⟨goTrimSpace (goTrimStart authHeader "Bearer "), c, htok, hv, ?_⟩
          have := henr
          simp only [GatewayOutcome.forwarded.injEq] at this
          exact this.symm
        · intro t e ht he
          rw [htok, Option.some.injEq] at ht
          rw [← ht, hv] at he
          exact absurd he (by simp)
    · have hb1 : goStartsWith authHeader "Bearer " = false := by
        exact Bool.eq_false_iff.mpr h1
      rw [serveHTTP_noMarker v reqCtx authHeader h0 hb1]
      constructor
      · intro enriched henr
        exact absurd henr (by simp)
      · intro t e ht
        exact absurd ht (by simp [bearerToken, h0, hb1])

/-- C1 witness: at the validator accepting exactly good and a request carrying
Bearer bad, the gateway answers 401 Invalid token. -/
theorem C1_gateway_forwards_only_on_validator_success_witness :
    (serveHTTP demoValidator [] "Bearer bad").1 = .unauthorized 401 "Invalid token" :=
  (C1_gateway_forwards_only_on_validator_success demoValidator [] "Bearer bad").2
    "bad" "invalid token" (by decide) (by decide)

/-- C2: the tool-handler middleware invokes the validator with the empty
string on every request, and its authentication decision is the same for any
two requests. -/
theorem C2_tool_auth_ignores_request
    (v : Validator) (ctx : AuthContext) (r1 r2 : CallToolRequest) :
    (withBearerTokenAuth v ctx r1).2 = [""] ∧
    withBearerTokenAuth v ctx r1 = withBearerTokenAuth v ctx r2 := by
  unfold withBearerTokenAuth
  cases v "" <;> simp

/-- C3 counterexample: at the header Bearer followed by a space, the token is
empty after trimming, yet the gateway does not fail with MalformedCredential:
it invokes the validator on the empty token and, with a validator that
accepts, forwards the request. -/
theorem C3_empty_token_reaches_validator :
    (serveHTTP acceptAllValidator [] "Bearer ").2 = [""] ∧
    (serveHTTP acceptAllValidator [] "Bearer ").1 = .forwarded [] := by decide

/-- C3 amended: an absent header fails with 401 Authorization required and a
present value without the case-sensitive Bearer-space marker fails with 401
Invalid Authorization format, both without invoking the validator; but a
header with the marker always reaches the validator with the extracted and
trimmed token, even when that token is empty. -/
theorem C3_header_classification
    (v : Validator) (reqCtx : AuthContext) (h : String) :
    (h = "" → serveHTTP v reqCtx h = (.unauthorized 401 "Authorization required", [])) ∧
    (h ≠ "" → goStartsWith h "Bearer " = false →
      serveHTTP v reqCtx h =
        (.unauthorized 401 "Invalid Authorization format - expected Bearer token", [])) ∧
    (goStartsWith h "Bearer " = true →
      (serveHTTP v reqCtx h).2 = [goTrimSpace (goTrimStart h "Bearer ")]) := by
  refine ⟨fun h0 => h0 ▸ serveHTTP_empty v reqCtx,
    fun h0 h1 => serveHTTP_noMarker v reqCtx h h0 h1, fun h1 => ?_⟩
  cases hv : v (goTrimSpace (goTrimStart h "Bearer ")) with
  | error e => rw [serveHTTP_marker_error v reqCtx h e h1 hv]
  | ok c => rw [serveHTTP_marker_ok v reqCtx h c h1 hv]

/-- C3 amended witness: the three branches at the concrete headers of the spec
examples, instantiating the classification theorem. -/
theorem C3_header_classification_witness :
    serveHTTP demoValidator [] "" = (.unauthorized 401 "Authorization required", []) ∧
    serveHTTP demoValidator [] "Token abc" =
      (.unauthorized 401 "Invalid Authorization format - expected Bearer token", []) ∧
    (serveHTTP demoValidator [] "Bearer good").2 = ["good"] := by
  refine ⟨(C3_header_classification demoValidator [] "").1 rfl,
    (C3_header_classification demoValidator [] "Token abc").2.1 (by decide) (by decide),
    ?_⟩
  have := (C3_header_classification demoValidator [] "Bearer good").2.2 (by decide)
  simpa using this

/-- C4 counterexample: the server specifies interval 7 in the
device-authorization response while the caller passes 5, and the poll ticker
is created at 5: the server-specified interval is not used (it is dropped by
GetDeviceCode) and no default is computed. -/
theorem C4_ticker_ignores_server_interval :
    (deviceFlowStart 5 (getDeviceCode (.response 200 (.ok wireDemo)))).map
        PollState.tickerInterval = .ok 5 ∧
    wireDemo.interval = 7 ∧ (5 : Nat) ≠ 7 := by decide

/-- C4 amended: the poll ticker is created at the caller-supplied interval
argument; the interval field of the device-authorization response is parsed
but discarded (GetDeviceCode returns the same DeviceCodeResponse whatever the
wire interval is), and no defaulting occurs. -/
theorem C4_interval_is_caller_supplied (i st : Nat) (w : DeviceAuthWire) (n m : Int)
    (dr : DeviceCodeResponse) :
    getDeviceCode (.response st (.ok { w with interval := n })) =
      getDeviceCode (.response st (.ok { w with interval := m })) ∧
    deviceFlowStart i (.ok dr) = .ok { tickerInterval := i, deviceResp := dr } :=
  ⟨rfl, rfl⟩

/-- C5 counterexample: with the flow started at interval 5, a first slow_down
raises the ticker period to 10, but a second consecutive slow_down leaves it
at 10: the period after handling it is not strictly greater than the period
in effect before it. -/
theorem C5_repeated_slow_down_does_not_increase :
    pollStep 5 { tickerInterval := 5, deviceResp := drDemo } slowDownTick
      = .again { tickerInterval := 10, deviceResp := drDemo } ∧
    pollStep 5 { tickerInterval := 10, deviceResp := drDemo } slowDownTick
      = .again { tickerInterval := 10, deviceResp := drDemo } ∧
    ¬ ((10 : Nat) < 10) := by decide

/-- C5 amended: a slow_down tick always resets the ticker to twice the
original interval argument, so the first slow_down strictly increases the
period (when the initial interval is positive) while every consecutive
slow_down leaves the period unchanged. -/
theorem C5_slow_down_doubles_initial_interval (i : Nat) (s : PollState) (hpos : 0 < i) :
    pollStep i s slowDownTick = .again { s with tickerInterval := i * 2 } ∧
    (s.tickerInterval = i → s.tickerInterval < i * 2) ∧
    (s.tickerInterval = i * 2 → ¬ (s.tickerInterval < i * 2)) := by
  have ha : containsSubstr (GoErr.message (.plain "slow_down")) "authorization_pending"
      = false := by decide
  have hb : containsSubstr (GoErr.message (.plain "slow_down")) "slow_down" = true := by
    decide
  refine ⟨by simp [slowDownTick, pollStep, ha, hb], fun h => by omega, fun h => by omega⟩

/-- C5 amended witness: the first slow_down at interval 5 moves the period
from 5 to 10, a strict increase. -/
theorem C5_slow_down_doubles_initial_interval_witness :
    pollStep 5 { tickerInterval := 5, deviceResp := drDemo } slowDownTick
      = .again { tickerInterval := 10, deviceResp := drDemo } ∧ (5 : Nat) < 10 :=
  ⟨(C5_slow_down_doubles_initial_interval 5 ⟨5, drDemo⟩ (by decide)).1,
    (C5_slow_down_doubles_initial_interval 5 ⟨5, drDemo⟩ (by decide)).2.1 rfl⟩

/-- C6 counterexample: a response whose body is the empty JSON object is
accepted by both ExchangeDeviceCode and RefreshToken without error, yet the
returned access token is empty. -/
theorem C6_success_with_empty_access_token :
    exchangeDeviceCode (.response 200 emptyExchangeBody)
      = .ok { accessToken := "", refreshToken := "", expiresIn := 0 } ∧
    refreshTokenCall "" (.response 200 (.ok emptyTokObj))
      = .ok { accessToken := "", refreshToken := "", expiresIn := 0 } := by decide

/-- Inversion of the success-path tail of ExchangeDeviceCode. -/
theorem exchangeTokenOf_ok {body : ExchangeBody} {t : TokenResponse}
    (h : exchangeTokenOf body = .ok t) :
    ∃ tok, body.asToken = .ok tok ∧
      t = { accessToken := tok.access_token, refreshToken := tok.refresh_token,
            expiresIn := tok.expires_in } := by
  unfold exchangeTokenOf at h
  cases hT : body.asToken with
  | error d => rw [hT] at h; exact absurd h (by simp)
  | ok tok =>
    rw [hT] at h
    simp only [Except.ok.injEq] at h
    exact ⟨tok, rfl, h.symm⟩

/-- Inversion of ExchangeDeviceCode on success: the token fields come verbatim
from the decoded success struct of the response body. -/
theorem exchangeDeviceCode_ok {r : ExchangeHTTP} {t : TokenResponse}
    (h : exchangeDeviceCode r = .ok t) :
    ∃ st body tok, r = .response st body ∧ body.asToken = .ok tok ∧
      t = { accessToken := tok.access_token, refreshToken := tok.refresh_token,
            expiresIn := tok.expires_in } := by
  cases r with
  | netError m => exact absurd h (by simp [exchangeDeviceCode])
  | readError m => exact absurd h (by simp [exchangeDeviceCode])
  | response st body =>
    cases hE : body.asError with
    | ok e =>
      by_cases hne : e.errField = ""
      · simp only [exchangeDeviceCode, hE, hne, ne_eq, not_true_eq_false, if_false,
          ite_false] at h
        obtain ⟨tok, hT, ht⟩ := exchangeTokenOf_ok h
        exact ⟨st, body, tok, rfl, hT, ht⟩
      · simp only [exchangeDeviceCode, hE, ne_eq, hne, not_false_eq_true, if_true,
          ite_true] at h
        split at h <;> exact absurd h (by simp)
    | error d =>
      simp only [exchangeDeviceCode, hE] at h
      obtain ⟨tok, hT, ht⟩ := exchangeTokenOf_ok h
      exact ⟨st, body, tok, rfl, hT, ht⟩

/-- Inversion of RefreshToken on success: status 200, the body decoded, and
the access token taken verbatim from the decoded struct. -/
theorem refreshTokenCall_ok {old : String} {r : HTTPResult (Except String TokObjWire)}
    {t : TokenResponse} (h : refreshTokenCall old r = .ok t) :
    ∃ tok, r = .response 200 (.ok tok) ∧
      t = { accessToken := tok.access_token,
            refreshToken := if tok.refresh_token = "" then old else tok.refresh_token,
            expiresIn := tok.expires_in } := by
  cases r with
  | netError m => exact absurd h (by simp [refreshTokenCall])
  | response st body =>
    by_cases hst : st = 200
    · subst hst
      cases hB : body with
      | error d =>
        rw [hB] at h
        simp [refreshTokenCall] at h
      | ok tok =>
        rw [hB] at h
        simp only [refreshTokenCall, ne_eq, not_true_eq_false, if_false, ite_false,
          reduceIte, Except.ok.injEq] at h
        exact ⟨tok, rfl, h.symm⟩
    · simp [refreshTokenCall, hst] at h

/-- C6 amended: a non-error return of ExchangeDeviceCode or RefreshToken
carries the access_token field of the decoded response body verbatim; no
non-emptiness check exists, so the access token is non-empty exactly when the
server supplied a non-empty one. -/
theorem C6_success_token_comes_from_body :
    (∀ (r : ExchangeHTTP) (t : TokenResponse), exchangeDeviceCode r = .ok t →
      ∃ st body tok, r = .response st body ∧ body.asToken = .ok tok ∧
        t.accessToken = tok.access_token) ∧
    (∀ (old : String) (r : HTTPResult (Except String TokObjWire)) (t : TokenResponse),
      refreshTokenCall old r = .ok t →
      ∃ tok, r = .response 200 (.ok tok) ∧ t.accessToken = tok.access_token) := by
  constructor
  · intro r t h
    obtain ⟨st, body, tok, hr, hT, ht⟩ := exchangeDeviceCode_ok h
    exact ⟨st, body, tok, hr, hT, by rw [ht]⟩
  · intro old r t h
    obtain ⟨tok, hr, ht⟩ := refreshTokenCall_ok h
    exact ⟨tok, hr, by rw [ht]⟩

/-- C6 amended witness: a body carrying access token abc yields that token on
both calls. -/
theorem C6_success_token_comes_from_body_witness :
    (∃ st body tok,
      (ExchangeHTTP.response 200
        { asError := .error "invalid character", asToken := .ok ⟨"abc", "r1", 3600⟩ })
          = .response st body ∧
      body.asToken = .ok tok ∧
      (TokenResponse.mk "abc" "r1" 3600).accessToken = tok.access_token) ∧
    (∃ tok,
      (HTTPResult.response 200 (.ok (TokObjWire.mk "abc" "r1" 3600))
        : HTTPResult (Except String TokObjWire)) = .response 200 (.ok tok) ∧
      (TokenResponse.mk "abc" "r1" 3600).accessToken = tok.access_token) :=
  ⟨C6_success_token_comes_from_body.1
      (.response 200 { asError := .error "invalid character", asToken := .ok ⟨"abc", "r1", 3600⟩ })
      (TokenResponse.mk "abc" "r1" 3600) rfl,
    C6_success_token_comes_from_body.2 "old"
      (.response 200 (.ok (TokObjWire.mk "abc" "r1" 3600)))
      (TokenResponse.mk "abc" "r1" 3600) rfl⟩

/-- C7: a successful refresh whose decoded body omits refresh_token returns
the refresh token that was passed in, unchanged. -/
theorem C7_refresh_preserves_refresh_token (old : String) (tok : TokObjWire)
    (homit : tok.refresh_token = "") :
    refreshTokenCall old (.response 200 (.ok tok)) =
      .ok { accessToken := tok.access_token, refreshToken := old,
            expiresIn := tok.expires_in } := by
  unfold refreshTokenCall
  simp [homit]

/-- C7 witness: refreshing with original token orig against a body without a
refresh token yields a TokenSet still carrying orig. -/
theorem C7_refresh_preserves_refresh_token_witness :
    refreshTokenCall "orig" (.response 200 (.ok (TokObjWire.mk "acc2" "" 3600))) =
      .ok { accessToken := "acc2", refreshToken := "orig", expiresIn := 3600 } :=
  C7_refresh_preserves_refresh_token "orig" (TokObjWire.mk "acc2" "" 3600) rfl

/-- C8: ValidateToken answers ok true exactly on status 200, ok false on any
other status, and an error only when the transport itself failed. -/
theorem C8_validate_token_status (r : HTTPResult Unit) :
    (validateToken r = .ok true ↔ r = .response 200 ()) ∧
    (∀ st, st ≠ 200 → r = .response st () → validateToken r = .ok false) ∧
    (∀ e, validateToken r = .error e → ∃ m, r = .netError m ∧ e = .sendFailed m) := by
  cases r with
  | netError m =>
    refine ⟨by simp [validateToken], by intro st hst hr; exact absurd hr (by simp), ?_⟩
    intro e he
    simp only [validateToken, Except.error.injEq] at he
    exact ⟨m, rfl, he.symm⟩
  | response st b =>
    cases b
    by_cases hst : st = 200
    · subst hst
      simp [validateToken]
      intro s2 hne
      omega
    · simp [validateToken, hst]

/-- C8 witness: a 404 from the introspection endpoint yields ok false, not an
error. -/
theorem C8_validate_token_status_witness :
    validateToken (.response 404 ()) = .ok false :=
  (C8_validate_token_status (.response 404 ())).2.1 404 (by decide) rfl

/-- C9: a body that decodes as neither the error struct nor the success
struct makes ExchangeDeviceCode return the generic parse failure, which is a
different error value from the bare pending text, and the polling loop stops
with that error instead of continuing. The two containment hypotheses record
that the decoder detail of Go encoding-json errors never embeds the literal
pending or slow_down words (such errors quote at most the single offending
character and an offset). -/
theorem C9_unparseable_body_is_terminal (st : Nat) (d1 d2 : String) (i : Nat)
    (s : PollState)
    (h1 : containsSubstr (GoErr.message (.parseFailed d2)) "authorization_pending" = false)
    (h2 : containsSubstr (GoErr.message (.parseFailed d2)) "slow_down" = false) :
    exchangeDeviceCode (.response st { asError := .error d1, asToken := .error d2 })
      = .error (.parseFailed d2) ∧
    (∀ p, GoErr.parseFailed d2 ≠ .plain p) ∧
    pollStep i s (.tick (.error (.parseFailed d2))) = .done (.error (.parseFailed d2)) := by
  refine ⟨rfl, by intro p h; exact absurd h (by simp), ?_⟩
  simp [pollStep, h1, h2]

/-- C9 witness: the decoder detail for an empty body, at a concrete loop
state. -/
theorem C9_unparseable_body_is_terminal_witness :
    exchangeDeviceCode (.response 400
        { asError := .error "unexpected end of JSON input",
          asToken := .error "unexpected end of JSON input" })
      = .error (.parseFailed "unexpected end of JSON input") ∧
    (∀ p, GoErr.parseFailed "unexpected end of JSON input" ≠ .plain p) ∧
    pollStep 5 { tickerInterval := 5, deviceResp := drDemo }
        (.tick (.error (.parseFailed "unexpected end of JSON input")))
      = .done (.error (.parseFailed "unexpected end of JSON input")) :=
  C9_unparseable_body_is_terminal 400 "unexpected end of JSON input"
    "unexpected end of JSON input" 5 ⟨5, drDemo⟩ (by decide) (by decide)

/-- C10: when ValidateToken answers true for a token but GetUserInfo fails,
the validator produced by CreateBearerTokenValidator still succeeds with the
single-entry authenticated context. -/
theorem C10_valid_token_survives_userinfo_failure
    (validateHTTP : String → HTTPResult Unit)
    (userInfoHTTP : String → HTTPResult (Except String AuthContext))
    (token : String) (e : GoErr)
    (hvalid : validateToken (validateHTTP token) = .ok true)
    (hfail : getUserInfo (userInfoHTTP token) = .error e) :
    createBearerTokenValidator validateHTTP userInfoHTTP token
      = .ok [("authenticated", GoValue.bool true)] := by
  simp [createBearerTokenValidator, hvalid, hfail]

/-- C10 witness: tokeninfo answers 200 while the userinfo transport fails;
the validator still accepts. -/
theorem C10_valid_token_survives_userinfo_failure_witness :
    createBearerTokenValidator (fun _ => .response 200 ())
        (fun _ => .netError "no route to host") "tok1"
      = .ok [("authenticated", GoValue.bool true)] :=
  C10_valid_token_survives_userinfo_failure (fun _ => .response 200 ())
    (fun _ => .netError "no route to host") "tok1" (.sendFailed "no route to host")
    rfl rfl

end MCPLaunchPad
